import Mathlib

/-!
Verification development for the `ics_caldav_sync` repository (`sync.py`).

The Python program is shallowly embedded below:

* instants are modelled as epoch seconds (`Int`); arrow/datetime values carry,
  in addition to the absolute instant, the UTC offset (in seconds) of the zone
  the parsed value is expressed in, which is what `strftime` renders;
* an `ics` `Event` becomes `RemoteEvent`: its parsed fields plus `bodyLines`,
  the lines of its textual serialisation (ICS bodies are one property per
  line); `untilEpoch` models the `UNTIL` bound that `dateutil.rrulestr`
  extracts from the event's `RRULE` line (`none` when the `RRULE` has no
  `UNTIL`);
* the CalDAV mirror is a list of stored events addressed by UID;
  `save_event` upserts by UID, deleting a UID that is not present is a no-op
  (a tolerant store — the engine's own decisions, the logs of issued
  submissions and deletions, are what the claims are settled on);
* `requests.get`/`ics.Calendar` become a `fetch` oracle returning
  `Except String (List RemoteEvent)`; `save_event` success/failure becomes a
  `submitOk : String → Nat → Bool` oracle (UID and attempt number — the code
  always makes attempt 1 only, but the oracle must be able to answer for later
  attempts so that retry claims are statable);
* Python's `re.sub(pat + "[^\n]+", repl, s)` on a property line replaces from
  the first occurrence of `pat` to the end of the line; this is `subToEol`.
-/

set_option autoImplicit false

namespace IcsCaldavSync

/-! ## Calendar date formatting (model of `strftime('%Y%m%dT%H%M%S')`)

Civil-from-days uses the standard era-based algorithm; it is only ever
evaluated on concrete post-1970 instants. -/

def pad2 (n : Nat) : String :=
  if n < 10 then "0" ++ toString n else toString n

def pad4 (n : Nat) : String :=
  if n < 10 then "000" ++ toString n
  else if n < 100 then "00" ++ toString n
  else if n < 1000 then "0" ++ toString n
  else toString n

/-- Civil date (year, month, day) from days since 1970-01-01, for days ≥ 0. -/
def civilFromDays (days : Nat) : Nat × Nat × Nat :=
  let z := days + 719468
  let era := z / 146097
  let doe := z % 146097
  let yoe := (doe - doe / 1460 + doe / 36524 - doe / 146096) / 365
  let y := yoe + era * 400
  let doy := doe - (365 * yoe + yoe / 4 - yoe / 100)
  let mp := (5 * doy + 2) / 153
  let d := doy - (153 * mp + 2) / 5 + 1
  let m := if mp < 10 then mp + 3 else mp - 9
  (if m ≤ 2 then y + 1 else y, m, d)

/-- Render wall-clock seconds since epoch as `YYYYMMDDTHHMMSS`. -/
def fmtDateTime (wall : Nat) : String :=
  let days := wall / 86400
  let sod := wall % 86400
  let ymd := civilFromDays days
  pad4 ymd.1 ++ pad2 ymd.2.1 ++ pad2 ymd.2.2 ++ "T" ++
    pad2 (sod / 3600) ++ pad2 (sod % 3600 / 60) ++ pad2 (sod % 60)

/-- Model of `value.strftime('%Y%m%dT%H%M%S')` for an arrow value that denotes
absolute instant `epoch` and is expressed in a zone with UTC offset `tz`
seconds: `strftime` renders the value's own wall clock, `epoch + tz`. -/
def strftimeWall (epoch tz : Int) : String :=
  fmtDateTime (epoch + tz).toNat

/-- UTC offset (seconds) of `Europe/Helsinki` standard (winter) time, as
declared by the `TZOFFSETTO:+0200` of the `STANDARD` section of the VTIMEZONE
block that `_wrap` embeds in every submitted calendar. -/
def helsinkiWinterOffset : Int := 7200

/-! ## String helpers

Python string/regex operations are modelled on `List Char` (`String.data`),
which the kernel evaluates; `String.startsWith` etc. do not kernel-reduce. -/

/-- `line.startswith(pat)` (Python). -/
def lineStarts (pat l : String) : Bool :=
  pat.data.isPrefixOf l.data

/-! ## Data model -/

/-- One parsed upstream VEVENT occurrence (`ics` `Event`). -/
structure RemoteEvent where
  uid : String
  name : String
  beginEpoch : Int
  beginTz : Int
  endEpoch : Int
  endTz : Int
  /-- The `UNTIL` bound `dateutil.rrulestr` extracts from the event's
  `RRULE` line (`none` when the `RRULE` carries no `UNTIL`). Only consulted
  when an `RRULE:` line is actually present in `bodyLines`. -/
  untilEpoch : Option Int
  /-- Lines of `str(event)`, the event's textual serialisation. -/
  bodyLines : List String
deriving DecidableEq, Repr

/-- An event stored in the CalDAV mirror, addressed by its UID. -/
structure MirrorEvent where
  uid : String
  endEpoch : Int
  body : List String
deriving DecidableEq, Repr

/-- One configured remote calendar: its tag (`id` in the source) and the
events parsed from its feed. -/
structure Source where
  id : String
  events : List RemoteEvent
deriving DecidableEq, Repr

/-! ## `get_event_end` (sync.py lines 117–141) -/

/-- `ICSToCalDAV.get_event_end`: scan the serialised event for an `RRULE:`
line; when one is present and carries an `UNTIL` bound, the effective end is
`max(vevent.end, until_date)`, otherwise it is the nominal `vevent.end`. -/
def get_event_end (e : RemoteEvent) : Int :=
  let rruleFound := e.bodyLines.any (lineStarts "RRULE:")
  let untilDate := if rruleFound then e.untilEpoch else none
  match untilDate with
  | none => e.endEpoch
  | some u => max e.endEpoch u

/-- The liveness test of sync.py line 161:
`arrow.utcnow().to('Europe/Helsinki') <= max_date` — the `.to` conversion
changes the rendering zone, not the instant, so this is an instant
comparison. -/
def isLive (now : Int) (e : RemoteEvent) : Bool :=
  decide (now ≤ get_event_end e)

/-! ## Event identity (sync.py line 168) -/

/-- `str(x)` for the Python float `x` holding the whole-second value `n`:
`str` renders such a float as the integer digits followed by `.0`. -/
def pyFloatStr (n : Int) : String := toString n ++ ".0"

/-- `new_uid = f"{id}_{remote_event.uid}" + '||' + str(remote_event.begin.timestamp())`.
`begin` is an Arrow value and the program requires arrow ≥ 1.0 (`dehumanize`,
used at line 230, exists only from 1.0, where `timestamp` is a method), so
`begin.timestamp()` returns a float and its `str` carries a trailing `.0`
for the whole-second starts that ICS parsing produces. -/
def resolvedIdentifier (tag uid : String) (beginEpoch : Int) : String :=
  (tag ++ "_" ++ uid) ++ "||" ++ pyFloatStr beginEpoch

/-- Counterexample to claim C3: at the claim's own scenario — Source tag
`work`, original id `evt1`, occurrence start epoch `1700000000` — the
identifier line 168 computes is `work_evt1||1700000000.0`, not the claimed
`work_evt1||1700000000`: the code stringifies `begin.timestamp()`, a float
under arrow ≥ 1.0, so the epoch renders with a trailing `.0`. -/
theorem C3_identifier_not_integral :
    resolvedIdentifier "work" "evt1" 1700000000 = "work_evt1||1700000000.0" ∧
    resolvedIdentifier "work" "evt1" 1700000000 ≠ "work_evt1||1700000000" :=
  ⟨rfl, by decide⟩

/-- Claim C3 as amended: the computed identifier is exactly
`{source_tag}_{original_identifier}||{occurrence_start_epoch}` with the
occurrence start epoch rendered the way Python renders the float
`begin.timestamp()` — the integer digits followed by `.0` for a
whole-second start; the scenario yields exactly `work_evt1||1700000000.0`. -/
theorem C3_amended_identifier_format :
    (∀ (tag uid : String) (b : Int),
      resolvedIdentifier tag uid b = tag ++ "_" ++ uid ++ "||" ++ pyFloatStr b) ∧
    (∀ b : Int, pyFloatStr b = toString b ++ ".0") ∧
    resolvedIdentifier "work" "evt1" 1700000000 = "work_evt1||1700000000.0" := by
  refine ⟨fun tag uid b => rfl, fun b => rfl, by decide⟩

/-- Claim C4 — Liveness decision: the effective end is
`max(nominal end, UNTIL)` when the event carries a recurrence rule with an
explicit UNTIL bound and the nominal end otherwise; an event is classified
live iff `now ≤ effective end`; consequently an event with nominal end `T`
and no recurrence is live strictly before `T` and expired strictly after
`T`, and an event with nominal end `T1` and an UNTIL bound `T2 > T1`
remains live exactly until `T2`. -/
theorem C4_liveness_decision (e : RemoteEvent) (now : Int) :
    (isLive now e = true ↔ now ≤ get_event_end e) ∧
    (∀ u : Int, e.bodyLines.any (lineStarts "RRULE:") = true →
      e.untilEpoch = some u → get_event_end e = max e.endEpoch u) ∧
    (e.untilEpoch = none → get_event_end e = e.endEpoch) ∧
    (e.untilEpoch = none →
      (now < e.endEpoch → isLive now e = true) ∧
      (e.endEpoch < now → isLive now e = false)) ∧
    (∀ u : Int, e.bodyLines.any (lineStarts "RRULE:") = true →
      e.untilEpoch = some u → e.endEpoch < u →
      (isLive now e = true ↔ now ≤ u)) := by
  constructor
  · simp [isLive]
  refine ⟨fun u hr hu => ?_, fun hu => ?_, fun hu => ?_, fun u hr hu hlt => ?_⟩
  · simp [get_event_end, hr, hu]
  · simp [get_event_end, hu]
  · constructor
    · intro h
      simp [isLive, get_event_end, hu]
      omega
    · intro h
      simp [isLive, get_event_end, hu]
      omega
  · simp [isLive, get_event_end, hr, hu]
    omega

/-- Witness for C4 at concrete inputs: an event with nominal end `100`,
an `RRULE` line, and UNTIL bound `200`; at `now = 150` it is live. -/
theorem C4_liveness_decision_witness :
    isLive 150 ⟨"u", "n", 0, 0, 100, 0, some 200, ["RRULE:FREQ=DAILY;UNTIL=X"]⟩ = true :=
  ((C4_liveness_decision ⟨"u", "n", 0, 0, 100, 0, some 200, ["RRULE:FREQ=DAILY;UNTIL=X"]⟩
      150).2.2.2.2 200 (by decide) rfl (by decide)).mpr (by decide)

/-! ## Regex-style line rewriting (sync.py lines 171–178)

`re.sub(r"PAT[^\n]+", repl, s)` applied to one property line: everything from
the first occurrence of `PAT` to the end of the line is replaced. -/

/-- Split a character list at the first occurrence of `pat`: returns the part
before the match and the part after it, or `none` when `pat` does not occur. -/
def splitFirst (pat : List Char) : List Char → Option (List Char × List Char)
  | [] => none
  | c :: cs =>
    if pat.isPrefixOf (c :: cs) then some ([], (c :: cs).drop pat.length)
    else
      match splitFirst pat cs with
      | some (p, r) => some (c :: p, r)
      | none => none

/-- `re.sub(pat + "[^\n]+", repl, line)` on a single line: the first
occurrence of `pat` and everything after it on the line are replaced by
`repl` (the regex is greedy to end of line, so the tail and any further
occurrences are consumed). Lines without the pattern are left alone. -/
def subToEol (pat repl line : String) : String :=
  match splitFirst pat.data line.data with
  | some (p, _) => String.mk p ++ repl
  | none => line

/-- `re.sub(r"RECURRENCE-ID.*\n", "", body)` on one line: when the pattern
occurs, the match (through the newline) is removed — a line that starts with
it disappears entirely, otherwise the text before the match survives. -/
def dropRecurrenceLine (line : String) : Option String :=
  match splitFirst "RECURRENCE-ID".data line.data with
  | some ([], _) => none
  | some (p, _) => some (String.mk p)
  | none => some line

/-- `s.replace(pat, repl)`-style global replacement on character lists,
modelling `re.sub(r"TZID=FLE Standard Time", ..., s)` (a plain-text
pattern, replaced at every occurrence). -/
def replaceAllAux (p : Char) (ps repl : List Char) : Nat → List Char → List Char
  | _, [] => []
  | 0, s => s
  | n + 1, c :: cs =>
    if (p :: ps).isPrefixOf (c :: cs) then
      repl ++ replaceAllAux p ps repl n (cs.drop ps.length)
    else c :: replaceAllAux p ps repl n cs

def replaceAll (pat repl s : String) : String :=
  match pat.data with
  | [] => s
  | p :: ps => String.mk (replaceAllAux p ps repl.data s.data.length s.data)

/-! ## The event transform (sync.py lines 163–183) -/

/-- Model of `str(remote_event)` after the `remote_event.name` assignment:
the `ics` library re-serialises the event, so the SUMMARY property reflects
the current `name`. -/
def serialize (e : RemoteEvent) : List String :=
  e.bodyLines.map (subToEol "SUMMARY:" ("SUMMARY:" ++ e.name))

/-- The body rewriting of sync.py lines 171–178, in source order:
replace the UID, drop RECURRENCE-ID lines, rewrite DTSTART and DTEND with
`Europe/Helsinki` TZID stamps built from `strftime` of the event's begin/end
(each rendered in the zone the parsed value itself carries), and normalise
the `FLE Standard Time` TZID. -/
def transformBody (newUid : String) (e : RemoteEvent) : List String :=
  let ls := serialize e
  let ls := ls.map (subToEol "UID:" ("UID:" ++ newUid))
  let ls := ls.filterMap dropRecurrenceLine
  let ls := ls.map
    (subToEol "DTSTART:" ("DTSTART;TZID=Europe/Helsinki:" ++ strftimeWall e.beginEpoch e.beginTz))
  let ls := ls.map
    (subToEol "DTEND:" ("DTEND;TZID=Europe/Helsinki:" ++ strftimeWall e.endEpoch e.endTz))
  ls.map (replaceAll "TZID=FLE Standard Time" "TZID=Europe/Helsinki")

/-- sync.py lines 163–178 for one live event: the display-name assignment
`remote_event.name = f"{id}:{remote_event.name}"` (an in-place mutation of
the upstream event object), the `new_uid` computation, and the body
rewrite. Returns the (mutated) event, the new UID, and the rewritten body. -/
def transformEvent (tag : String) (e : RemoteEvent) : RemoteEvent × String × List String :=
  let e2 : RemoteEvent := { e with name := tag ++ ":" ++ e.name }
  let newUid := resolvedIdentifier tag e.uid e.beginEpoch
  (e2, newUid, transformBody newUid e2)

/-- The static VTIMEZONE block of `_wrap` (sync.py lines 87–105). -/
def vtimezoneLines : List String :=
  ["BEGIN:VTIMEZONE", "TZID:Europe/Helsinki", "BEGIN:DAYLIGHT",
   "TZOFFSETFROM:+0200", "RRULE:FREQ=YEARLY;BYMONTH=3;BYDAY=-1SU",
   "DTSTART:19810329T030000", "TZNAME:EEST", "TZOFFSETTO:+0300",
   "END:DAYLIGHT", "BEGIN:STANDARD", "TZOFFSETFROM:+0300",
   "RRULE:FREQ=YEARLY;BYMONTH=10;BYDAY=-1SU", "DTSTART:19811025T040000",
   "TZNAME:EET", "TZOFFSETTO:+0200", "END:STANDARD", "END:VTIMEZONE"]

/-- `ICSToCalDAV._wrap`: the VEVENT is wrapped in a VCALENDAR envelope with
the static VTIMEZONE block (each line left-stripped). -/
def _wrap (vevent : List String) : List String :=
  ["BEGIN:VCALENDAR", "VERSION:2.0",
   "PRODID:-//Chihiro Software Ltd//Calendar sync//EN"]
    ++ vtimezoneLines ++ vevent ++ ["END:VCALENDAR"]

/-! ## Lemmas about the line rewriting -/

theorem splitFirst_of_append (p : Char) (ps rest : List Char) :
    splitFirst (p :: ps) (p :: ps ++ rest) = some ([], rest) := by
  have hpre : (p :: ps).isPrefixOf (p :: ps ++ rest) = true := by
    rw [List.isPrefixOf_iff_prefix]
    exact List.prefix_append (p :: ps) rest
  have hdrop : (p :: ps ++ rest).drop (p :: ps).length = rest :=
    List.drop_left (p :: ps) rest
  have : p :: ps ++ rest = p :: (ps ++ rest) := rfl
  rw [this] at hpre hdrop ⊢
  simp only [splitFirst, hpre, if_true, hdrop]

theorem subToEol_of_data_append (p : Char) (ps : List Char) (pat : String)
    (hpat : pat.data = p :: ps) (repl line : String) (rest : List Char)
    (hline : line.data = p :: ps ++ rest) :
    subToEol pat repl line = repl := by
  have h0 : String.mk ([] : List Char) ++ repl = repl := by
    cases repl with
    | mk d => rfl
  simp only [subToEol, hpat, hline, splitFirst_of_append, h0]

theorem subToEol_of_no_occurrence (pat repl line : String)
    (h : splitFirst pat.data line.data = none) :
    subToEol pat repl line = line := by
  simp only [subToEol, h]

theorem dropRecurrenceLine_of_no_occurrence (line : String)
    (h : splitFirst "RECURRENCE-ID".data line.data = none) :
    dropRecurrenceLine line = some line := by
  simp only [dropRecurrenceLine, h]

theorem replaceAllAux_of_no_occurrence (p : Char) (ps repl : List Char) :
    ∀ (n : Nat) (s : List Char), splitFirst (p :: ps) s = none →
      replaceAllAux p ps repl n s = s := by
  intro n
  induction n with
  | zero =>
    intro s _
    cases s <;> rfl
  | succ n ih =>
    intro s hs
    cases s with
    | nil => rfl
    | cons c cs =>
      by_cases hpre : (p :: ps).isPrefixOf (c :: cs) = true
      · rw [splitFirst, if_pos hpre] at hs
        exact absurd hs (by simp)
      · rw [splitFirst, if_neg hpre] at hs
        have hcs : splitFirst (p :: ps) cs = none := by
          cases h2 : splitFirst (p :: ps) cs with
          | none => rfl
          | some pr =>
            rw [h2] at hs
            exact absurd hs (by simp)
        rw [replaceAllAux, if_neg hpre, ih cs hcs]

theorem replaceAll_of_no_occurrence (pat repl s : String)
    (h : splitFirst pat.data s.data = none) :
    replaceAll pat repl s = s := by
  unfold replaceAll
  cases hp : pat.data with
  | nil => rfl
  | cons p ps =>
    rw [hp] at h
    show String.mk (replaceAllAux p ps repl.data s.data.length s.data) = s
    rw [replaceAllAux_of_no_occurrence p ps repl.data s.data.length s.data h]

/-- Concrete upstream event for the transform scenarios: parsed from a body
whose DTSTART is `20240101T090000Z`, so `begin` denotes the absolute instant
`1704099600` (2024-01-01T09:00:00 UTC) and is carried in UTC (offset 0). -/
def c9Event : RemoteEvent :=
  { uid := "evt1", name := "Meeting", beginEpoch := 1704099600, beginTz := 0,
    endEpoch := 1704103200, endTz := 0, untilEpoch := none,
    bodyLines := ["BEGIN:VEVENT", "UID:evt1", "SUMMARY:Meeting",
      "DTSTART:20240101T090000Z", "DTEND:20240101T100000Z", "END:VEVENT"] }

/-- The body the engine submits for `c9Event` under Source tag `work`. -/
def c9Output : List String := (transformEvent "work" c9Event).2.2

/-- Counterexample to claim C9: the transform does not express the resolved
start instant in the target timezone. For `c9Event` the resolved start is
`1704099600` (09:00 UTC); expressed in `Europe/Helsinki` (UTC+2 at that
date, per the STANDARD section of the program's own VTIMEZONE block) its
wall clock is `20240101T110000`, but the submitted body stamps
`TZID=Europe/Helsinki` onto the UTC wall clock `20240101T090000` — `strftime`
is applied to `begin` without converting it to the target zone, so the line
the claim requires does not occur in the output. -/
theorem C9_dtstart_not_target_zone :
    ("DTSTART;TZID=Europe/Helsinki:" ++
        strftimeWall c9Event.beginEpoch helsinkiWinterOffset) ∉ c9Output ∧
    "DTSTART;TZID=Europe/Helsinki:20240101T090000" ∈ c9Output ∧
    strftimeWall c9Event.beginEpoch helsinkiWinterOffset = "20240101T110000" := by
  refine ⟨by decide, by decide, by decide⟩

/-- Claim C9 as amended: the transform rewrites a `DTSTART:` field to
`DTSTART;TZID=Europe/Helsinki:` followed by the wall-clock digits of the
event's parsed start *in the zone the parsed start itself carries*
(`beginEpoch + beginTz`), with no conversion of the instant to the target
zone; it expresses the resolved instant in the target timezone only when the
parsed start already carries that zone. Stated for a body whose line starts
with `DTSTART:` and is not touched by the other rewrite patterns. -/
theorem C9_amended_dtstart_rewrite (uid nm : String) (b bt en et : Int)
    (u : Option Int) (newUid : String) (rest : List Char)
    (line : String) (hline : line.data = "DTSTART:".data ++ rest)
    (hsum : splitFirst "SUMMARY:".data line.data = none)
    (huid : splitFirst "UID:".data line.data = none)
    (hrec : splitFirst "RECURRENCE-ID".data line.data = none)
    (hdtend : splitFirst "DTEND:".data
      ("DTSTART;TZID=Europe/Helsinki:" ++ strftimeWall b bt).data = none)
    (hfle : splitFirst "TZID=FLE Standard Time".data
      ("DTSTART;TZID=Europe/Helsinki:" ++ strftimeWall b bt).data = none) :
    transformBody newUid ⟨uid, nm, b, bt, en, et, u, [line]⟩ =
      ["DTSTART;TZID=Europe/Helsinki:" ++ strftimeWall b bt] := by
  unfold transformBody serialize
  simp only [List.map_cons, List.map_nil]
  rw [subToEol_of_no_occurrence _ _ _ hsum, subToEol_of_no_occurrence _ _ _ huid]
  simp only [List.filterMap_cons, List.filterMap_nil,
    dropRecurrenceLine_of_no_occurrence line hrec]
  simp only [List.map_cons, List.map_nil]
  rw [subToEol_of_data_append 'D' "TSTART:".data "DTSTART:" rfl _ line rest hline,
    subToEol_of_no_occurrence _ _ _ hdtend, replaceAll_of_no_occurrence _ _ _ hfle]

/-- Witness for the amended C9 theorem at the concrete scenario line
`DTSTART:20240101T090000Z` with begin `1704099600` carried in UTC. -/
theorem C9_amended_dtstart_rewrite_witness :
    transformBody "work_evt1||1704099600.0"
        ⟨"evt1", "Meeting", 1704099600, 0, 1704103200, 0, none,
          ["DTSTART:20240101T090000Z"]⟩ =
      ["DTSTART;TZID=Europe/Helsinki:" ++ strftimeWall 1704099600 0] :=
  C9_amended_dtstart_rewrite "evt1" "Meeting" 1704099600 0 1704103200 0 none
    "work_evt1||1704099600.0" "20240101T090000Z".data "DTSTART:20240101T090000Z"
    (by decide) (by decide) (by decide) (by decide) (by decide) (by decide)

/-- Concrete upstream event for the purity claim. -/
def c8Event : RemoteEvent :=
  { uid := "evt2", name := "Standup", beginEpoch := 1704100000, beginTz := 0,
    endEpoch := 1704101000, endTz := 0, untilEpoch := none,
    bodyLines := ["BEGIN:VEVENT", "UID:evt2", "SUMMARY:Standup", "END:VEVENT"] }

/-- Counterexample to claim C8: computing the transformed body is not free of
side effects on the `UpstreamEvent` — sync.py line 165 assigns
`remote_event.name = f"{id}:{remote_event.name}"` before serialising, so the
event object's display name is mutated: after the transform under tag `work`
the event differs from the original, its name having become `work:Standup`. -/
theorem C8_transform_mutates_event :
    (transformEvent "work" c8Event).1 ≠ c8Event ∧
    (transformEvent "work" c8Event).1.name = "work:Standup" ∧
    c8Event.name = "Standup" := by
  refine ⟨by decide, by decide, by decide⟩

/-- Claim C8 as amended: the transform produces a new string, but it mutates
the `UpstreamEvent`'s display name in place, prefixing it with
`{source_tag}:`; every other field of the event — identifier, start and end
instants, recurrence data, and the raw body — is left unchanged. -/
theorem C8_amended_transform_effects (tag : String) (e : RemoteEvent) :
    (transformEvent tag e).1.name = tag ++ ":" ++ e.name ∧
    (transformEvent tag e).1.uid = e.uid ∧
    (transformEvent tag e).1.beginEpoch = e.beginEpoch ∧
    (transformEvent tag e).1.beginTz = e.beginTz ∧
    (transformEvent tag e).1.endEpoch = e.endEpoch ∧
    (transformEvent tag e).1.endTz = e.endTz ∧
    (transformEvent tag e).1.untilEpoch = e.untilEpoch ∧
    (transformEvent tag e).1.bodyLines = e.bodyLines ∧
    (transformEvent tag e).2.1 = resolvedIdentifier tag e.uid e.beginEpoch :=
  ⟨rfl, rfl, rfl, rfl, rfl, rfl, rfl, rfl, rfl⟩

/-! ## The reconciliation engine (sync.py `synchronise`, lines 144–202) -/

/-- The engine's observable state during one run: the mirror store, the
function-scoped `new_uid` variable (which leaks out of the per-event loop
and across sources), and the logs of the operations the engine issued. -/
structure EngineState where
  mirror : List MirrorEvent
  /-- The last value assigned to `new_uid` (sync.py line 168); `none` while
  the variable is still unbound. -/
  lastNewUid : Option String
  /-- UIDs of the save_event submissions that succeeded, in order. -/
  submitted : List String
  /-- One entry per save_event call (submission attempt), in order. -/
  attempts : List String
  /-- UIDs whose submission failed and was reported (line 188). -/
  failures : List String
  /-- Identifiers for which a DELETE was issued (lines 195–198), in order. -/
  deletions : List String
deriving DecidableEq, Repr

/-- `local_calendar.save_event`: CalDAV stores one object per UID, so saving
an event whose UID is already present replaces it, otherwise it is added. -/
def upsert (m : List MirrorEvent) (ev : MirrorEvent) : List MirrorEvent :=
  if m.any (fun x => x.uid == ev.uid) then
    m.map (fun x => if x.uid == ev.uid then ev else x)
  else m ++ [ev]

/-- The body of the per-event loop (sync.py lines 155–189) for one remote
event: skip the specially-named event, skip expired events, otherwise mutate
the name, compute `new_uid`, rewrite the body and attempt one `save_event`
call — `submitOk uid 1` tells whether that single attempt succeeds; on
failure the exception is reported and the loop continues (`continue`). -/
def processEvent (submitOk : String → Nat → Bool) (now : Int) (tag : String)
    (st : EngineState) (e : RemoteEvent) : EngineState :=
  if e.name == "Arvova Dailya" then st
  else if isLive now e then
    let t := transformEvent tag e
    let newUid := t.2.1
    let st2 := { st with lastNewUid := some newUid, attempts := st.attempts ++ [newUid] }
    if submitOk newUid 1 then
      { st2 with
        mirror := upsert st2.mirror ⟨newUid, e.endEpoch, _wrap t.2.2⟩,
        submitted := st2.submitted ++ [newUid] }
    else { st2 with failures := st2.failures ++ [newUid] }
  else st

/-- `uid.split('||')[0]`: the part of a stored identifier before the first
`||` (the whole string when `||` does not occur). -/
def uidStem (s : String) : String :=
  match splitFirst "||".data s.data with
  | some (p, _) => String.mk p
  | none => s

/-- `_get_local_events_ids` (sync.py lines 67–78): list the mirrored events
occurring after `now` (`date_search(arrow.utcnow())`) and collect their UIDs
as a set (modelled as a deduplicated list). -/
def getLocalEventsIds (now : Int) (mirror : List MirrorEvent) : List String :=
  ((mirror.filter (fun m => decide (now ≤ m.endEpoch))).map (fun m => m.uid)).dedup

/-- The deletion phase (sync.py lines 191–202).

Line 191, `remote_events_ids = set(new_uid for e in remote_calendar.events)`,
does not use `e`: it produces the empty set when the feed has no events and
otherwise the singleton holding the current value of the function-scoped
`new_uid` variable — a `NameError` if `new_uid` was never assigned during
this `synchronise` call. Line 192 truncates every local UID at `||`; the
difference set is computed from those stems and a DELETE is issued for each
element (built as `{url}{id}.ics`, modelled as deletion by UID; an id that
matches no stored event deletes nothing). -/
def deletePhase (now : Int) (events : List RemoteEvent) (st : EngineState) :
    Except String EngineState :=
  let remoteIdsOpt : Option (List String) :=
    if events.isEmpty then some []
    else st.lastNewUid.map (fun u => [u])
  match remoteIdsOpt with
  | none => .error "NameError: name new_uid is not defined"
  | some remoteIds =>
    let localIds := ((getLocalEventsIds now st.mirror).map uidStem).dedup
    let toDelete := localIds.filter (fun i => !(remoteIds.contains i))
    .ok { st with
      mirror := st.mirror.filter (fun m => !(toDelete.contains m.uid)),
      deletions := st.deletions ++ toDelete }

/-- One iteration of the outer per-source loop of `synchronise`: process all
events of the source, then run the deletion phase. -/
def syncSource (submitOk : String → Nat → Bool) (now : Int)
    (st : EngineState) (src : Source) : Except String EngineState :=
  deletePhase now src.events (src.events.foldl (processEvent submitOk now src.id) st)

/-- The initial engine state of one `synchronise` call over mirror `m`. -/
def initState (m : List MirrorEvent) : EngineState :=
  { mirror := m, lastNewUid := none, submitted := [], attempts := [],
    failures := [], deletions := [] }

/-- `ICSToCalDAV.synchronise`: iterate over the configured sources in order;
an uncaught exception (the line-191 `NameError`) aborts the whole call. -/
def synchronise (submitOk : String → Nat → Bool) (now : Int)
    (sources : List Source) (mirror : List MirrorEvent) :
    Except String EngineState :=
  sources.foldlM (syncSource submitOk now) (initState mirror)

/-! ## Construction and the top level (sync.py lines 35–65 and 211–250) -/

/-- `ICSToCalDAV.__init__` (lines 55–65): every configured feed is fetched
and parsed eagerly, in order, with no exception handling — the first fetch
or parse failure propagates and aborts construction. -/
def fetchAll (fetch : String → Except String (List RemoteEvent)) :
    List (String × String) → Except String (List Source)
  | [] => .ok []
  | (url, tag) :: rest =>
    match fetch url with
    | .error e => .error e
    | .ok feed =>
      match fetchAll fetch rest with
      | .error e => .error e
      | .ok others => .ok (⟨tag, feed⟩ :: others)

/-- One full run, `ICSToCalDAV(**settings).synchronise()`: construct (fetch
all feeds) and reconcile. -/
def runOnce (fetch : String → Except String (List RemoteEvent))
    (submitOk : String → Nat → Bool) (now : Int)
    (urls : List (String × String)) (mirror : List MirrorEvent) :
    Except String EngineState :=
  match fetchAll fetch urls with
  | .error e => .error e
  | .ok sources => synchronise submitOk now sources mirror

/-- The `SYNC_EVERY` validation (sync.py lines 225–234): absent means one-shot;
a present value is checked with `arrow.utcnow().dehumanize` (modelled by the
`isValid` oracle) and an invalid value raises before the loop is entered. -/
def parseSyncEvery (isValid : String → Bool) (syncEvery : Option String) :
    Except String (Option String) :=
  match syncEvery with
  | none => .ok none
  | some s =>
    if isValid s then .ok (some s)
    else .error "SYNC_EVERY value is invalid. Try something like '2 minutes' or '1 hours'"

/-- The `while True` loop (sync.py lines 236–250), observed for `fuel`
iterations: each iteration performs one reconciliation pass; when
`SYNC_EVERY` is unset, `next_run` is `None` and the loop breaks after the
first pass; otherwise it sleeps and repeats. Returns the number of passes
performed within `fuel` iterations. -/
def mainLoopRuns (syncEvery : Option String) : Nat → Nat
  | 0 => 0
  | n + 1 => 1 + (if syncEvery.isSome then mainLoopRuns syncEvery n else 0)

/-- Whether the loop has terminated (reached `break`) within `fuel`
iterations. -/
def mainLoopStops (syncEvery : Option String) : Nat → Bool
  | 0 => false
  | n + 1 => if syncEvery.isSome then mainLoopStops syncEvery n else true

/-- The whole `__main__` scheduling behaviour: validate `SYNC_EVERY`, then
loop; the result is the number of reconciliation passes and whether the
program terminated, or the startup error. -/
def mainProgram (isValid : String → Bool) (syncEvery : Option String)
    (fuel : Nat) : Except String (Nat × Bool) :=
  match parseSyncEvery isValid syncEvery with
  | .error e => .error e
  | .ok se => .ok (mainLoopRuns se fuel, mainLoopStops se fuel)

/-! ## Behaviour of the per-event loop -/

/-- An event reaches the submission attempt iff it is not the specially-named
excluded event and is classified live. -/
def processedP (now : Int) (e : RemoteEvent) : Bool :=
  (!(e.name == "Arvova Dailya")) && isLive now e

/-- The ResolvedIdentifier the engine computes for event `e` of Source
`tag`. -/
def ridOf (tag : String) (e : RemoteEvent) : String :=
  resolvedIdentifier tag e.uid e.beginEpoch

theorem transformEvent_newUid (tag : String) (e : RemoteEvent) :
    (transformEvent tag e).2.1 = ridOf tag e := rfl

theorem processEvent_excluded (submitOk : String → Nat → Bool) (now : Int)
    (tag : String) (st : EngineState) (e : RemoteEvent)
    (h1 : (e.name == "Arvova Dailya") = true) :
    processEvent submitOk now tag st e = st := by
  simp [processEvent, h1]

theorem processEvent_expired (submitOk : String → Nat → Bool) (now : Int)
    (tag : String) (st : EngineState) (e : RemoteEvent)
    (h1 : (e.name == "Arvova Dailya") = false) (h2 : isLive now e = false) :
    processEvent submitOk now tag st e = st := by
  simp [processEvent, h1, h2]

theorem processEvent_submit_ok (submitOk : String → Nat → Bool) (now : Int)
    (tag : String) (st : EngineState) (e : RemoteEvent)
    (h1 : (e.name == "Arvova Dailya") = false) (h2 : isLive now e = true)
    (h3 : submitOk (ridOf tag e) 1 = true) :
    processEvent submitOk now tag st e =
      { st with
        mirror := upsert st.mirror ⟨ridOf tag e, e.endEpoch, _wrap (transformEvent tag e).2.2⟩,
        lastNewUid := some (ridOf tag e),
        attempts := st.attempts ++ [ridOf tag e],
        submitted := st.submitted ++ [ridOf tag e] } := by
  simp [processEvent, h1, h2, transformEvent_newUid, h3]

theorem processEvent_submit_fail (submitOk : String → Nat → Bool) (now : Int)
    (tag : String) (st : EngineState) (e : RemoteEvent)
    (h1 : (e.name == "Arvova Dailya") = false) (h2 : isLive now e = true)
    (h3 : submitOk (ridOf tag e) 1 = false) :
    processEvent submitOk now tag st e =
      { st with
        lastNewUid := some (ridOf tag e),
        attempts := st.attempts ++ [ridOf tag e],
        failures := st.failures ++ [ridOf tag e] } := by
  simp [processEvent, h1, h2, transformEvent_newUid, h3]

theorem foldl_processEvent_attempts (submitOk : String → Nat → Bool)
    (now : Int) (tag : String) :
    ∀ (es : List RemoteEvent) (st : EngineState),
      (es.foldl (processEvent submitOk now tag) st).attempts =
        st.attempts ++ (es.filter (processedP now)).map (ridOf tag) := by
  intro es
  induction es with
  | nil => intro st; simp
  | cons e es ih =>
    intro st
    rw [List.foldl_cons]
    cases h1 : (e.name == "Arvova Dailya") with
    | true =>
      rw [processEvent_excluded submitOk now tag st e h1, ih]
      simp [processedP, h1]
    | false =>
      cases h2 : isLive now e with
      | false =>
        rw [processEvent_expired submitOk now tag st e h1 h2, ih]
        simp [processedP, h1, h2]
      | true =>
        cases h3 : submitOk (ridOf tag e) 1 with
        | false =>
          rw [processEvent_submit_fail submitOk now tag st e h1 h2 h3, ih]
          simp [processedP, h1, h2]
        | true =>
          rw [processEvent_submit_ok submitOk now tag st e h1 h2 h3, ih]
          simp [processedP, h1, h2]

theorem foldl_processEvent_submitted (submitOk : String → Nat → Bool)
    (now : Int) (tag : String) :
    ∀ (es : List RemoteEvent) (st : EngineState),
      (es.foldl (processEvent submitOk now tag) st).submitted =
        st.submitted ++
          (es.filter (fun e => processedP now e && submitOk (ridOf tag e) 1)).map
            (ridOf tag) := by
  intro es
  induction es with
  | nil => intro st; simp
  | cons e es ih =>
    intro st
    rw [List.foldl_cons]
    cases h1 : (e.name == "Arvova Dailya") with
    | true =>
      rw [processEvent_excluded submitOk now tag st e h1, ih]
      simp [processedP, h1]
    | false =>
      cases h2 : isLive now e with
      | false =>
        rw [processEvent_expired submitOk now tag st e h1 h2, ih]
        simp [processedP, h1, h2]
      | true =>
        cases h3 : submitOk (ridOf tag e) 1 with
        | false =>
          rw [processEvent_submit_fail submitOk now tag st e h1 h2 h3, ih]
          simp [processedP, h1, h2, h3]
        | true =>
          rw [processEvent_submit_ok submitOk now tag st e h1 h2 h3, ih]
          simp [processedP, h1, h2, h3]

theorem foldl_processEvent_failures (submitOk : String → Nat → Bool)
    (now : Int) (tag : String) :
    ∀ (es : List RemoteEvent) (st : EngineState),
      (es.foldl (processEvent submitOk now tag) st).failures =
        st.failures ++
          (es.filter (fun e => processedP now e && !(submitOk (ridOf tag e) 1))).map
            (ridOf tag) := by
  intro es
  induction es with
  | nil => intro st; simp
  | cons e es ih =>
    intro st
    rw [List.foldl_cons]
    cases h1 : (e.name == "Arvova Dailya") with
    | true =>
      rw [processEvent_excluded submitOk now tag st e h1, ih]
      simp [processedP, h1]
    | false =>
      cases h2 : isLive now e with
      | false =>
        rw [processEvent_expired submitOk now tag st e h1 h2, ih]
        simp [processedP, h1, h2]
      | true =>
        cases h3 : submitOk (ridOf tag e) 1 with
        | false =>
          rw [processEvent_submit_fail submitOk now tag st e h1 h2 h3, ih]
          simp [processedP, h1, h2, h3]
        | true =>
          rw [processEvent_submit_ok submitOk now tag st e h1 h2 h3, ih]
          simp [processedP, h1, h2, h3]

theorem foldl_processEvent_lastUid (submitOk : String → Nat → Bool)
    (now : Int) (tag : String) :
    ∀ (es : List RemoteEvent) (st : EngineState),
      (st.lastNewUid.isSome || es.any (processedP now)) = true →
        (es.foldl (processEvent submitOk now tag) st).lastNewUid.isSome = true := by
  intro es
  induction es with
  | nil =>
    intro st h
    simpa using h
  | cons e es ih =>
    intro st h
    rw [List.foldl_cons]
    cases h1 : (e.name == "Arvova Dailya") with
    | true =>
      rw [processEvent_excluded submitOk now tag st e h1]
      refine ih st ?_
      revert h
      simp [processedP, h1]
    | false =>
      cases h2 : isLive now e with
      | false =>
        rw [processEvent_expired submitOk now tag st e h1 h2]
        refine ih st ?_
        revert h
        simp [processedP, h1, h2]
      | true =>
        cases h3 : submitOk (ridOf tag e) 1 with
        | false =>
          rw [processEvent_submit_fail submitOk now tag st e h1 h2 h3]
          refine ih _ ?_
          simp
        | true =>
          rw [processEvent_submit_ok submitOk now tag st e h1 h2 h3]
          refine ih _ ?_
          simp

/-- When `new_uid` is bound after the event loop, the deletion phase does
not raise. -/
theorem deletePhase_ok_of_isSome (now : Int) (events : List RemoteEvent)
    (st : EngineState) (h : st.lastNewUid.isSome = true) :
    ∃ st2, deletePhase now events st = .ok st2 := by
  unfold deletePhase
  cases hne : events.isEmpty with
  | true => exact ⟨_, rfl⟩
  | false =>
    cases hu : st.lastNewUid with
    | none => simp [hu] at h
    | some u => exact ⟨_, rfl⟩

/-- When some event of the source was processed, `new_uid` is bound and the
deletion phase does not raise; the source loop completes. -/
theorem syncSource_completes (submitOk : String → Nat → Bool) (now : Int)
    (st : EngineState) (tag : String) (es : List RemoteEvent)
    (h : es.any (processedP now) = true) :
    ∃ st2, syncSource submitOk now st ⟨tag, es⟩ = .ok st2 := by
  have hsome :
      (es.foldl (processEvent submitOk now tag) st).lastNewUid.isSome = true := by
    refine foldl_processEvent_lastUid submitOk now tag es st ?_
    simp [h]
  exact deletePhase_ok_of_isSome now es _ hsome

/-! ## Concrete runs for the reconciliation claims -/

/-- A store that accepts every submission. -/
def alwaysOk : String → Nat → Bool := fun _ _ => true

def c1EventA : RemoteEvent :=
  { uid := "a", name := "A", beginEpoch := 1, beginTz := 0, endEpoch := 1000,
    endTz := 0, untilEpoch := none, bodyLines := ["UID:a"] }

def c1EventC : RemoteEvent :=
  { uid := "c", name := "C", beginEpoch := 3, beginTz := 0, endEpoch := 1000,
    endTz := 0, untilEpoch := none, bodyLines := ["UID:c"] }

/-- Mirror holding the three identifiers A = `w_a||1.0`, B = `w_b||2.0`,
C = `w_c||3.0` of Source `w`. -/
def c1Mirror : List MirrorEvent :=
  [⟨"w_a||1.0", 1000, []⟩, ⟨"w_b||2.0", 1000, []⟩, ⟨"w_c||3.0", 1000, []⟩]

/-- One run over Source `w` whose fresh live-event computation yields
exactly {A, C} (events `a` and `c`, both live at `now = 10`). -/
def c1Run : Except String EngineState :=
  synchronise alwaysOk 10 [⟨"w", [c1EventA, c1EventC]⟩] c1Mirror

/-- Claim C1 evaluated at its own scenario, exhibiting the bug: with the
mirror holding {`w_a||1.0`, `w_b||2.0`, `w_c||3.0`} and the live computation
yielding {`w_a||1.0`, `w_c||3.0`}, the engine should delete exactly B —
instead line 191's `set(new_uid for e in ...)` (which never uses `e`) makes
the "remote" set the singleton of the *last* `new_uid`, and line 192
truncates every local UID at `||`, so DELETEs are issued for `w_a`, `w_b`
and `w_c`: A and C are targeted as well, none of the issued ids matches a
stored event, and B's entry survives in the mirror. -/
theorem C1_deletion_set_bug :
    c1Run.map (fun s => s.deletions) = Except.ok ["w_a", "w_b", "w_c"] ∧
    c1Run.map (fun s => s.mirror.map (fun m => m.uid)) =
      Except.ok ["w_a||1.0", "w_b||2.0", "w_c||3.0"] ∧
    (["w_a", "w_b", "w_c"] : List String) ≠ ["w_b||2.0"] :=
  ⟨rfl, rfl, by decide⟩

def c2Event1 : RemoteEvent :=
  { uid := "u1", name := "U1", beginEpoch := 100, beginTz := 0, endEpoch := 1000,
    endTz := 0, untilEpoch := none, bodyLines := ["UID:u1"] }

def c2Event2 : RemoteEvent :=
  { uid := "u2", name := "U2", beginEpoch := 300, beginTz := 0, endEpoch := 1000,
    endTz := 0, untilEpoch := none, bodyLines := ["UID:u2"] }

def c2Sources : List Source := [⟨"w", [c2Event1, c2Event2]⟩]

/-- First reconciliation pass over an empty mirror. -/
def c2Run1 : Except String EngineState := synchronise alwaysOk 50 c2Sources []

def c2Mirror1 : List MirrorEvent :=
  match c2Run1 with
  | .ok s => s.mirror
  | .error _ => []

/-- Second pass with the identical (unchanged) upstream feed. -/
def c2Run2 : Except String EngineState :=
  synchronise alwaysOk 50 c2Sources c2Mirror1

/-- Claim C2 evaluated with an unchanged two-event feed, exhibiting the bug:
the second run re-creates no duplicates (the mirror still holds exactly
`w_u1||100.0` and `w_u2||300.0`), but it is not deletion-free — like every
run, it compares the `||`-truncated local ids against the singleton of the
leaked last `new_uid` and issues DELETEs for `w_u1` and `w_u2`, where
idempotence demands that the second run delete nothing. -/
theorem C2_second_run_deletes_bug :
    c2Run2.map (fun s => s.deletions) = Except.ok ["w_u1", "w_u2"] ∧
    (["w_u1", "w_u2"] : List String) ≠ [] ∧
    c2Run2.map (fun s => s.mirror.map (fun m => m.uid)) =
      Except.ok ["w_u1||100.0", "w_u2||300.0"] ∧
    c2Run1.map (fun s => s.mirror.map (fun m => m.uid)) =
      Except.ok ["w_u1||100.0", "w_u2||300.0"] :=
  ⟨rfl, by decide, rfl, rfl⟩

/-! ## Retry and isolation claims -/

def c5Event : RemoteEvent :=
  { uid := "e1", name := "E1", beginEpoch := 5, beginTz := 0, endEpoch := 1000,
    endTz := 0, untilEpoch := none, bodyLines := ["UID:e1"] }

/-- A transiently failing store: the first submission attempt for
`t_e1||5.0` fails, any later attempt would succeed. -/
def c5SubmitOk : String → Nat → Bool :=
  fun u n => !(u == "t_e1||5.0" && n == 1)

def c5State : EngineState :=
  [c5Event].foldl (processEvent c5SubmitOk 10 "t") (initState [])

/-- Counterexample to claim C5: for an event whose submission fails
transiently (the first attempt fails, a second attempt would succeed) the
engine does not retry — the single `try`/`except` of sync.py lines 163–189
makes exactly one `save_event` call, then reports and moves on, so the
event is never submitted even though one retry would have stored it. -/
theorem C5_no_retry_counterexample :
    c5SubmitOk "t_e1||5.0" 1 = false ∧
    c5SubmitOk "t_e1||5.0" 2 = true ∧
    c5State.attempts = ["t_e1||5.0"] ∧
    ¬ 2 ≤ c5State.attempts.count "t_e1||5.0" ∧
    c5State.submitted = [] ∧
    c5State.failures = ["t_e1||5.0"] :=
  ⟨rfl, rfl, rfl, by decide, rfl, rfl⟩

/-- Claim C5 as amended: on submission failure there is no retry and no
backoff — every event that reaches submission receives exactly one
`save_event` attempt whatever the outcome, a failed attempt is reported
(the failures log) and the loop proceeds to the next event. -/
theorem C5_amended_single_attempt (submitOk : String → Nat → Bool)
    (now : Int) (tag : String) (st : EngineState) (es : List RemoteEvent) :
    (es.foldl (processEvent submitOk now tag) st).attempts =
      st.attempts ++ (es.filter (processedP now)).map (ridOf tag) ∧
    (es.foldl (processEvent submitOk now tag) st).failures =
      st.failures ++
        (es.filter (fun e => processedP now e && !(submitOk (ridOf tag e) 1))).map
          (ridOf tag) :=
  ⟨foldl_processEvent_attempts submitOk now tag es st,
   foldl_processEvent_failures submitOk now tag es st⟩

/-- Claim C6 — Partial failure isolation: the set of submitted events is
exactly the live, non-excluded events whose own submission succeeds — one
event's failure has no effect on whether its siblings are submitted — and
whenever at least one event was processed the whole source loop (deletion
phase included) completes without aborting. -/
theorem C6_partial_failure_isolation (submitOk : String → Nat → Bool)
    (now : Int) (tag : String) (st : EngineState) (es : List RemoteEvent) :
    (es.foldl (processEvent submitOk now tag) st).submitted =
      st.submitted ++
        (es.filter (fun e => processedP now e && submitOk (ridOf tag e) 1)).map
          (ridOf tag) ∧
    (es.any (processedP now) = true →
      ∃ st2, syncSource submitOk now st ⟨tag, es⟩ = .ok st2) :=
  ⟨foldl_processEvent_submitted submitOk now tag es st,
   fun h => syncSource_completes submitOk now st tag es h⟩

def c6E1 : RemoteEvent :=
  { uid := "e1", name := "E1", beginEpoch := 1, beginTz := 0, endEpoch := 1000,
    endTz := 0, untilEpoch := none, bodyLines := ["UID:e1"] }

def c6E2 : RemoteEvent :=
  { uid := "e2", name := "E2", beginEpoch := 2, beginTz := 0, endEpoch := 1000,
    endTz := 0, untilEpoch := none, bodyLines := ["UID:e2"] }

def c6E3 : RemoteEvent :=
  { uid := "e3", name := "E3", beginEpoch := 3, beginTz := 0, endEpoch := 1000,
    endTz := 0, untilEpoch := none, bodyLines := ["UID:e3"] }

/-- A store on which every submission of E2 fails. -/
def c6SubmitOk : String → Nat → Bool := fun u _ => !(u == "w_e2||2.0")

/-- Witness for C6 at the claim's own scenario {E1, E2, E3} with E2's
submission failing: E1 and E3 are still submitted and the source loop
completes. -/
theorem C6_partial_failure_isolation_witness :
    ([c6E1, c6E2, c6E3].foldl (processEvent c6SubmitOk 10 "w")
        (initState [])).submitted = ["w_e1||1.0", "w_e3||3.0"] ∧
    ∃ st2, syncSource c6SubmitOk 10 (initState []) ⟨"w", [c6E1, c6E2, c6E3]⟩ =
      .ok st2 := by
  have h := C6_partial_failure_isolation c6SubmitOk 10 "w" (initState [])
    [c6E1, c6E2, c6E3]
  exact ⟨h.1.trans (by decide), h.2 (by decide)⟩

/-! ## Source failure containment -/

theorem fetchAll_error_of_mem (fetch : String → Except String (List RemoteEvent)) :
    ∀ (urls : List (String × String)) (u tag msg : String),
      (u, tag) ∈ urls → fetch u = .error msg →
      ∃ m, fetchAll fetch urls = .error m := by
  intro urls
  induction urls with
  | nil => intro u tag msg hmem _; cases hmem
  | cons p rest ih =>
    intro u tag msg hmem hf
    obtain ⟨u0, t0⟩ := p
    cases hf0 : fetch u0 with
    | error e => exact ⟨e, by simp [fetchAll, hf0]⟩
    | ok feed =>
      rcases List.mem_cons.mp hmem with heq | hmem2
      · obtain ⟨hu, _⟩ := Prod.mk.injEq .. ▸ heq
        rw [hu] at hf
        rw [hf0] at hf
        exact absurd hf (by simp)
      · obtain ⟨m, hm⟩ := ih u tag msg hmem2 hf
        refine ⟨m, ?_⟩
        simp [fetchAll, hf0, hm]

def c7Event : RemoteEvent :=
  { uid := "e", name := "E", beginEpoch := 1, beginTz := 0, endEpoch := 1000,
    endTz := 0, untilEpoch := none, bodyLines := ["UID:e"] }

/-- Source `u1` is unreachable; source `u2` parses fine. -/
def c7Fetch : String → Except String (List RemoteEvent) :=
  fun url => if url == "u1" then .error "network error" else .ok [c7Event]

def c7Run : Except String EngineState :=
  runOnce c7Fetch alwaysOk 10 [("u1", "a"), ("u2", "b")] []

/-- Counterexample to claim C7: with two configured Sources and the first
one failing to fetch, the run does not reconcile the healthy second Source —
`__init__` fetches every feed eagerly with no exception handling, so the
whole run aborts with the fetch error and no source is reconciled. -/
theorem C7_fetch_failure_counterexample :
    c7Run = .error "network error" ∧ ¬ ∃ st, c7Run = Except.ok st := by
  refine ⟨rfl, ?_⟩
  rintro ⟨st, h⟩
  have h2 : (Except.error "network error" : Except String EngineState) =
      Except.ok st := h
  exact Except.noConfusion h2

/-- Claim C7 as amended: a fetch or parse failure for any configured Source
aborts the entire run before any Source is reconciled — construction
(`__init__`) fetches all feeds eagerly and propagates the first error, so no
sibling Source completes its fetch, submit and delete steps. -/
theorem C7_amended_fetch_failure_aborts
    (fetch : String → Except String (List RemoteEvent))
    (submitOk : String → Nat → Bool) (now : Int)
    (urls : List (String × String)) (mirror : List MirrorEvent)
    (u tag msg : String) (hmem : (u, tag) ∈ urls)
    (hf : fetch u = .error msg) :
    ∃ m, runOnce fetch submitOk now urls mirror = .error m := by
  obtain ⟨m, hm⟩ := fetchAll_error_of_mem fetch urls u tag msg hmem hf
  exact ⟨m, by simp [runOnce, hm]⟩

/-- Witness for the amended C7 theorem at the concrete two-source
configuration with the first fetch failing. -/
theorem C7_amended_fetch_failure_aborts_witness :
    ∃ m, runOnce c7Fetch alwaysOk 10 [("u1", "a"), ("u2", "b")] [] =
      .error m :=
  C7_amended_fetch_failure_aborts c7Fetch alwaysOk 10
    [("u1", "a"), ("u2", "b")] [] "u1" "a" "network error" (by decide) rfl

/-! ## One-shot termination -/

theorem mainLoopRuns_some (s : String) : ∀ n, mainLoopRuns (some s) n = n := by
  intro n
  induction n with
  | zero => rfl
  | succ n ih => simp [mainLoopRuns, ih]; omega

theorem mainLoopStops_some (s : String) : ∀ n, mainLoopStops (some s) n = false := by
  intro n
  induction n with
  | zero => rfl
  | succ n ih => simp [mainLoopStops, ih]

/-- Claim C10 — One-shot termination: with `SYNC_EVERY` absent the program
performs exactly one reconciliation pass and terminates (for any positive
iteration budget); with a present and valid value the loop never breaks and
performs one pass per iteration; with a present invalid value it fails fast
at startup before any pass. -/
theorem C10_one_shot_termination (isValid : String → Bool) (s : String)
    (fuel : Nat) :
    (1 ≤ fuel → mainProgram isValid none fuel = .ok (1, true)) ∧
    (isValid s = true → mainProgram isValid (some s) fuel = .ok (fuel, false)) ∧
    (isValid s = false → mainProgram isValid (some s) fuel =
      .error "SYNC_EVERY value is invalid. Try something like '2 minutes' or '1 hours'") := by
  refine ⟨fun h => ?_, fun hv => ?_, fun hv => ?_⟩
  · obtain ⟨n, rfl⟩ : ∃ n, fuel = n + 1 := ⟨fuel - 1, by omega⟩
    simp [mainProgram, parseSyncEvery, mainLoopRuns, mainLoopStops]
  · simp [mainProgram, parseSyncEvery, hv, mainLoopRuns_some, mainLoopStops_some]
  · simp [mainProgram, parseSyncEvery, hv]

def c10Valid : String → Bool := fun s => s == "2 minutes"

/-- Witness for C10 at concrete inputs: no `SYNC_EVERY` gives one pass and
termination within 3 iterations; a valid value gives 3 passes in 3
iterations and no termination; an invalid value fails at startup. -/
theorem C10_one_shot_termination_witness :
    mainProgram c10Valid none 3 = .ok (1, true) ∧
    mainProgram c10Valid (some "2 minutes") 3 = .ok (3, false) ∧
    mainProgram c10Valid (some "soon") 3 =
      .error "SYNC_EVERY value is invalid. Try something like '2 minutes' or '1 hours'" :=
  ⟨(C10_one_shot_termination c10Valid "soon" 3).1 (by decide),
   (C10_one_shot_termination c10Valid "2 minutes" 3).2.1 (by decide),
   (C10_one_shot_termination c10Valid "soon" 3).2.2 (by decide)⟩

end IcsCaldavSync
